import Mathlib

/-!
Shallow embedding of the AVLBinaryTree container and the QueueADT container
from src/unnamed/part_003 of the repository, with the element type T
instantiated at Int.  Pointer-linked nodes are embedded as an inductive tree
that carries the two cached per-node fields (height and balanceFactor)
exactly as the C++ Node does; a null pointer is Node.nil.  The std::cout
logging performed by the public methods is dropped; the treeSize side effect
is threaded explicitly; a C++ null-pointer dereference that is reachable
from the public API is modelled by an Option result (none means the
operation crashes).
-/

namespace AVL

/-- Embedding of AVLBinaryTree Node (element type int): left and right
child pointers, the stored data, and the two cached fields height and
balanceFactor kept by the C++ code.  Node.nil is the null pointer. -/
inductive Node where
  | nil : Node
  | node (left : Node) (data : Int) (height : Int) (balanceFactor : Int) (right : Node) : Node
deriving DecidableEq

/-- Reading the left child pointer of a node. -/
def leftChild : Node → Node
  | Node.nil => Node.nil
  | Node.node l _ _ _ _ => l

/-- Reading the right child pointer of a node. -/
def rightChild : Node → Node
  | Node.nil => Node.nil
  | Node.node _ _ _ _ r => r

/-- Reading the data field of a node.  The nil case corresponds to a C++
null dereference and is unreachable from the call sites we model; the
value 0 returned there is never used by any theorem. -/
def dataOf : Node → Int
  | Node.nil => 0
  | Node.node _ d _ _ _ => d

/-- Reading the cached balanceFactor field of a node.  The nil case would be
a C++ null dereference, unreachable at the modelled call sites. -/
def balanceFactorOf : Node → Int
  | Node.nil => 0
  | Node.node _ _ _ bf _ => bf

/-- The C++ idiom used throughout the file: a null child contributes the
height -1, a non-null child contributes its cached height field. -/
def childHeight : Node → Int
  | Node.nil => -1
  | Node.node _ _ h _ _ => h

/-- Number of nodes of a tree; used only as a termination measure for the
queue-driven loops below. -/
def countNodes : Node → Nat
  | Node.nil => 0
  | Node.node l _ _ _ r => countNodes l + countNodes r + 1

/-- AVLBinaryTree calculateHeightOfTree: difference of the cached heights
of the two children of the given node (right minus left).  Every C++ call
site null-checks the argument first, so the nil case is unreachable. -/
def calculateHeightOfTree : Node → Int
  | Node.nil => 0
  | Node.node l _ _ _ r => childHeight r - childHeight l

/-- AVLBinaryTree updateHeight: recompute the cached height and
balanceFactor fields of a node from the cached heights of its children. -/
def updateHeight : Node → Node
  | Node.nil => Node.nil
  | Node.node l d _ _ r =>
      Node.node l d (max (childHeight l) (childHeight r) + 1)
        (childHeight r - childHeight l) r

/-- AVLBinaryTree leftRotation: the right child becomes the new parent.
The C++ code dereferences the right child, so a nil right child would
crash; that case is unreachable from the call sites and the input is
returned unchanged there.  updateHeight runs first on the demoted node and
then on the new parent, exactly as in the source. -/
def leftRotation : Node → Node
  | Node.node l d h bf (Node.node rl rd rh rbf rr) =>
      updateHeight (Node.node (updateHeight (Node.node l d h bf rl)) rd rh rbf rr)
  | n => n

/-- AVLBinaryTree rightRotation: the left child becomes the new parent
(mirror image of leftRotation). -/
def rightRotation : Node → Node
  | Node.node (Node.node ll ld lh lbf lr) d h bf r =>
      updateHeight (Node.node ll ld lh lbf (updateHeight (Node.node lr d h bf r)))
  | n => n

/-- AVLBinaryTree leftRightRotation: first left-rotate the left child and
store it back, then right-rotate the node itself. -/
def leftRightRotation : Node → Node
  | Node.nil => Node.nil
  | Node.node l d h bf r => rightRotation (Node.node (leftRotation l) d h bf r)

/-- AVLBinaryTree rightLeftRotation: first right-rotate the right child and
store it back, then left-rotate the node itself. -/
def rightLeftRotation : Node → Node
  | Node.nil => Node.nil
  | Node.node l d h bf r => leftRotation (Node.node l d h bf (rightRotation r))

/-- AVLBinaryTree checkBalanceAndUpdate: dispatch on the cached balance
factor of the node; -2 selects a right rotation or a left-right rotation
depending on the cached balance factor of the left child, +2 mirrors this
on the right side, anything else returns the node unchanged. -/
def checkBalanceAndUpdate (n : Node) : Node :=
  if balanceFactorOf n = -2 then
    if balanceFactorOf (leftChild n) ≤ 0 then rightRotation n
    else leftRightRotation n
  else if balanceFactorOf n = 2 then
    if balanceFactorOf (rightChild n) ≥ 0 then leftRotation n
    else rightLeftRotation n
  else n

/-- The tree that remains visible from a retained pointer after calling
checkBalanceAndUpdate on it and discarding the returned root, as
removeHelper does in its last statement.  A rotation relinks the child
pointer of the node in place and updates the node with updateHeight, but
the promoted new parent is only reachable through the discarded return
value, so from the old pointer only the relinked child is seen. -/
def checkBalanceAndUpdateDropped : Node → Node
  | Node.nil => Node.nil
  | Node.node l d h bf r =>
    if bf = -2 then
      if balanceFactorOf l ≤ 0 then updateHeight (Node.node (rightChild l) d h bf r)
      else updateHeight (Node.node (rightChild (leftRotation l)) d h bf r)
    else if bf = 2 then
      if balanceFactorOf r ≥ 0 then updateHeight (Node.node l d h bf (leftChild r))
      else updateHeight (Node.node l d h bf (leftChild (rightRotation r)))
    else Node.node l d h bf r

/-- AVLBinaryTree DFSInsertHelper.  Keys strictly greater than the node go
right, every other key (equal keys included) goes left; a new leaf is
allocated at the first null pointer.  The Int component is the number of
treeSize increments performed (the C++ increments treeSize exactly at the
allocation).  On unwinding, the freshly stored child is passed through
updateHeight and checkBalanceAndUpdate, then the node itself is. -/
def DFSInsertHelper (element : Int) : Node → Node × Int
  | Node.nil => (Node.node Node.nil element 0 0 Node.nil, 1)
  | Node.node l d h bf r =>
    if element > d then
      let p := DFSInsertHelper element r
      let r2 := checkBalanceAndUpdate (updateHeight p.1)
      (checkBalanceAndUpdate (updateHeight (Node.node l d h bf r2)), p.2)
    else
      let p := DFSInsertHelper element l
      let l2 := checkBalanceAndUpdate (updateHeight p.1)
      (checkBalanceAndUpdate (updateHeight (Node.node l2 d h bf r)), p.2)

/-- Embedding of the AVLBinaryTree object state: the root pointer and the
treeSize counter.  After the C++ remove frees the sole node without
resetting the root pointer, the root field keeps its old (now dangling)
non-null value; the embedding keeps the old Node value to record exactly
that the pointer is still non-null. -/
structure AVLBinaryTree where
  root : Node
  treeSize : Int
deriving DecidableEq

/-- The default constructor: root null, treeSize 0. -/
def AVLBinaryTree.empty : AVLBinaryTree := ⟨Node.nil, 0⟩

/-- AVLBinaryTree size accessor. -/
def size (t : AVLBinaryTree) : Int := t.treeSize

/-- AVLBinaryTree isEmpty: true iff the root pointer is null. -/
def isEmpty (t : AVLBinaryTree) : Bool := decide (t.root = Node.nil)

/-- AVLBinaryTree insert: an empty tree gets a fresh root and treeSize++,
otherwise the root is replaced by the result of DFSInsertHelper and the
treeSize increments performed inside the helper are applied. -/
def insert (t : AVLBinaryTree) (arg : Int) : AVLBinaryTree :=
  match t.root with
  | Node.nil => ⟨Node.node Node.nil arg 0 0 Node.nil, t.treeSize + 1⟩
  | n =>
    let p := DFSInsertHelper arg n
    ⟨p.1, t.treeSize + p.2⟩

/-- AVLBinaryTree isBalanced: true for an empty tree, otherwise true iff
calculateHeightOfTree of the root is exactly 0.  Only the root is
inspected. -/
def isBalanced (t : AVLBinaryTree) : Bool :=
  match t.root with
  | Node.nil => true
  | n => decide (calculateHeightOfTree n = 0)

/-- The key sequence emitted by inorderTreeTraversalPrint: left subtree,
node, right subtree. -/
def inorderKeys : Node → List Int
  | Node.nil => []
  | Node.node l d _ _ r => inorderKeys l ++ [d] ++ inorderKeys r

/-- AVLBinaryTree retrieveNodeDFS: binary-search descent returning the
node holding the element (as the subtree rooted there), or none when the
descent reaches a null pointer. -/
def retrieveNodeDFS (element : Int) : Node → Option Node
  | Node.nil => none
  | Node.node l d h bf r =>
    if d = element then some (Node.node l d h bf r)
    else if element > d then retrieveNodeDFS element r
    else retrieveNodeDFS element l

/-- AVLBinaryTree retrieveFurthestLeftNodeDFS: return the node reached by
stepping left when a left child exists, right when only a right child
exists, stopping at the first leaf.  The C++ dereferences its argument, so
the nil case is unreachable from the call sites. -/
def retrieveFurthestLeftNodeDFS : Node → Node
  | Node.nil => Node.nil
  | Node.node Node.nil d h bf Node.nil => Node.node Node.nil d h bf Node.nil
  | Node.node Node.nil _ _ _ (Node.node rl rd rh rbf rr) =>
      retrieveFurthestLeftNodeDFS (Node.node rl rd rh rbf rr)
  | Node.node (Node.node ll ld lh lbf lr) _ _ _ _ =>
      retrieveFurthestLeftNodeDFS (Node.node ll ld lh lbf lr)

/-- AVLBinaryTree retrieveFurthestRightNodeDFS: mirror image of
retrieveFurthestLeftNodeDFS. -/
def retrieveFurthestRightNodeDFS : Node → Node
  | Node.nil => Node.nil
  | Node.node Node.nil d h bf Node.nil => Node.node Node.nil d h bf Node.nil
  | Node.node (Node.node ll ld lh lbf lr) _ _ _ Node.nil =>
      retrieveFurthestRightNodeDFS (Node.node ll ld lh lbf lr)
  | Node.node _ _ _ _ (Node.node rl rd rh rbf rr) =>
      retrieveFurthestRightNodeDFS (Node.node rl rd rh rbf rr)

/-- Writing a new data value into the node that
retrieveFurthestLeftNodeDFS reaches; this embeds the in-place assignment
the C++ performs through the returned pointer. -/
def setDataAtFurthestLeft (v : Int) : Node → Node
  | Node.nil => Node.nil
  | Node.node Node.nil _ h bf Node.nil => Node.node Node.nil v h bf Node.nil
  | Node.node Node.nil d h bf (Node.node rl rd rh rbf rr) =>
      Node.node Node.nil d h bf (setDataAtFurthestLeft v (Node.node rl rd rh rbf rr))
  | Node.node (Node.node ll ld lh lbf lr) d h bf r =>
      Node.node (setDataAtFurthestLeft v (Node.node ll ld lh lbf lr)) d h bf r

/-- Writing a new data value into the node that
retrieveFurthestRightNodeDFS reaches. -/
def setDataAtFurthestRight (v : Int) : Node → Node
  | Node.nil => Node.nil
  | Node.node Node.nil _ h bf Node.nil => Node.node Node.nil v h bf Node.nil
  | Node.node (Node.node ll ld lh lbf lr) d h bf Node.nil =>
      Node.node (setDataAtFurthestRight v (Node.node ll ld lh lbf lr)) d h bf Node.nil
  | Node.node l d h bf (Node.node rl rd rh rbf rr) =>
      Node.node l d h bf (setDataAtFurthestRight v (Node.node rl rd rh rbf rr))

/-- Applying a transformation at the node where the binary-search descent
for the element lands (the same descent retrieveNodeDFS performs); this
embeds the in-place mutations the C++ performs through the foundNode
pointer. -/
def mapAtSearch (element : Int) (f : Node → Node) : Node → Node
  | Node.nil => Node.nil
  | Node.node l d h bf r =>
    if d = element then f (Node.node l d h bf r)
    else if element > d then Node.node l d h bf (mapAtSearch element f r)
    else Node.node (mapAtSearch element f l) d h bf r

/-- AVLBinaryTree DFSRemoveHelper: post-order sweep that, whenever a child
of the current node holds the element after its own subtrees have been
processed, frees that child and nulls the child pointer (dropping the
whole subtree hanging from it) while decrementing treeSize once.  The Int
component is the accumulated treeSize change. -/
def DFSRemoveHelper (element : Int) : Node → Node × Int
  | Node.nil => (Node.nil, 0)
  | Node.node l d h bf r =>
    let pl := DFSRemoveHelper element l
    let pr := DFSRemoveHelper element r
    if pl.1 ≠ Node.nil ∧ dataOf pl.1 = element then
      (Node.node Node.nil d h bf pr.1, pl.2 + pr.2 - 1)
    else if pr.1 ≠ Node.nil ∧ dataOf pr.1 = element then
      (Node.node pl.1 d h bf Node.nil, pl.2 + pr.2 - 1)
    else
      (Node.node pl.1 d h bf pr.1, pl.2 + pr.2)

/-- AVLBinaryTree removeHelper.  Phase one locates the node holding the
element with retrieveNodeDFS; when that search fails the C++ dereferences
the null foundNode pointer, modelled as none.  Phase two classifies the
found node by its children, swaps its data with the furthest node of the
populated side, and runs DFSRemoveHelper on the element; finally
checkBalanceAndUpdate is called on the root with its result discarded,
leaving only the in-place part of any rotation visible. -/
def removeHelper (element : Int) (node : Node) : Option (Node × Int) :=
  match retrieveNodeDFS element node with
  | none => none
  | some found =>
    if leftChild found = Node.nil ∧ rightChild found = Node.nil then
      let p := DFSRemoveHelper element node
      some (checkBalanceAndUpdateDropped p.1, p.2)
    else if leftChild found = Node.nil then
      let b := retrieveFurthestLeftNodeDFS (rightChild found)
      let swapped := mapAtSearch element (fun fd =>
        match fd with
        | Node.nil => Node.nil
        | Node.node fl fdta fh fbf fr =>
            Node.node fl (dataOf b) fh fbf (setDataAtFurthestLeft fdta fr)) node
      let p := DFSRemoveHelper element swapped
      some (checkBalanceAndUpdateDropped p.1, p.2)
    else if rightChild found = Node.nil then
      let b := retrieveFurthestRightNodeDFS (leftChild found)
      let swapped := mapAtSearch element (fun fd =>
        match fd with
        | Node.nil => Node.nil
        | Node.node fl fdta fh fbf fr =>
            Node.node (setDataAtFurthestRight fdta fl) (dataOf b) fh fbf fr) node
      let p := DFSRemoveHelper element swapped
      some (checkBalanceAndUpdateDropped p.1, p.2)
    else
      let b := retrieveFurthestLeftNodeDFS (rightChild found)
      let swapped := mapAtSearch element (fun fd =>
        match fd with
        | Node.nil => Node.nil
        | Node.node fl fdta fh fbf fr =>
            Node.node fl (dataOf b) fh fbf (setDataAtFurthestLeft fdta fr)) node
      let p := DFSRemoveHelper element swapped
      some (checkBalanceAndUpdateDropped p.1, p.2)

/-- AVLBinaryTree remove.  Empty tree: plain return.  treeSize equal to 1:
the root node is freed and treeSize is decremented, without comparing the
argument against the stored key and without resetting the root pointer,
which keeps its old non-null value.  Otherwise removeHelper runs; none
records the crash it suffers when the key is absent. -/
def remove (t : AVLBinaryTree) (arg : Int) : Option AVLBinaryTree :=
  match t.root with
  | Node.nil => some t
  | n =>
    if t.treeSize = 1 then some ⟨n, t.treeSize - 1⟩
    else
      match removeHelper arg n with
      | none => none
      | some p => some ⟨p.1, t.treeSize + p.2⟩

/-- AVLBinaryTree binarySearchDFS: standard binary-search descent; equal
data returns the node, greater keys go right, everything else goes left. -/
def binarySearchDFS : Node → Int → Option Node
  | Node.nil, _ => none
  | Node.node l d h bf r, src =>
    if d = src then some (Node.node l d h bf r)
    else if src > d then binarySearchDFS r src
    else binarySearchDFS l src

/-- Termination measure for the queue-driven loops: twice the total node
count of the queued subtrees plus the queue length. -/
def queueMeasure (q : List Node) : Nat :=
  2 * (q.map countNodes).sum + q.length

/-- The while loop of AVLBinaryTree binarySearchBFS over the explicit
std::queue contents.  Only non-null pointers are ever enqueued by this
loop, so the nil head case is unreachable. -/
def bfsLoop (src : Int) (q : List Node) : Option Node :=
  match q with
  | [] => none
  | Node.nil :: rest => bfsLoop src rest
  | Node.node l d h bf r :: rest =>
    if d = src then some (Node.node l d h bf r)
    else if src > d ∧ r ≠ Node.nil then bfsLoop src (rest ++ [r])
    else if src < d ∧ l ≠ Node.nil then bfsLoop src (rest ++ [l])
    else bfsLoop src rest
termination_by queueMeasure q
decreasing_by
  all_goals
    simp [queueMeasure, countNodes, List.map_append, List.sum_append]
  all_goals omega

/-- AVLBinaryTree binarySearchBFS: run the queue loop starting from the
given node. -/
def binarySearchBFS (node : Node) (src : Int) : Option Node :=
  bfsLoop src [node]

/-- AVLBinaryTree binarySearch.  With T instantiated at int the C++ guard
(!src || !root) reads: the searched key converts to boolean false, that is
src equals 0, or the root pointer is null; in both cases false is returned
before any descent.  Otherwise the string selector picks the DFS or the
BFS search and the result is compared against the null pointer. -/
def binarySearch (t : AVLBinaryTree) (src : Int) (type : String) : Bool :=
  if src = 0 ∨ t.root = Node.nil then false
  else if type = ("DFS") then (binarySearchDFS t.root src).isSome
  else (binarySearchBFS t.root src).isSome

/-- AVLBinaryTree contains: binarySearch with the DFS selector. -/
def contains (t : AVLBinaryTree) (element : Int) : Bool :=
  binarySearch t element ("DFS")

/-- The C++ pattern: push val onto the queue only when the guard pointer is
non-null.  In the equals loop of the source the guard and the pushed value
differ for one of the four pushes (the aliasing defect), hence the two
separate arguments. -/
def pushIfNonNull (q : List Node) (guard val : Node) : List Node :=
  match guard with
  | Node.nil => q
  | _ => q ++ [val]

/-- The while loop of AVLBinaryTree equals over the two explicit queues.
Per iteration: an empty other queue returns false, unequal data returns
false, then the children of the this-side node are enqueued on the this
queue, while the other queue receives the this-side left child whenever
the other-side left child exists (exactly the aliasing defect of the
source: queueOther.push receives thisNode left) and the other-side right
child whenever it exists.  A null pointer enqueued through the aliased
push is dereferenced when popped, modelled as none; the this queue itself
never holds a null pointer. -/
def equalsLoop (thisQ otherQ : List Node) : Option Bool :=
  match thisQ, otherQ with
  | [], rest => some rest.isEmpty
  | _ :: _, [] => some false
  | thisNode :: thisRest, otherNode :: otherRest =>
    match thisNode, otherNode with
    | Node.nil, _ => none
    | _, Node.nil => none
    | Node.node tl td th tbf tr, Node.node ol od oh obf orr =>
      if td ≠ od then some false
      else
        equalsLoop
          (pushIfNonNull (pushIfNonNull thisRest tl tl) tr tr)
          (pushIfNonNull (pushIfNonNull otherRest ol tl) orr orr)
termination_by queueMeasure thisQ
decreasing_by
  have hpush : ∀ (q : List Node) (g v : Node),
      queueMeasure (pushIfNonNull q g v) ≤ queueMeasure q + 2 * countNodes v + 1 := by
    intro q g v
    cases g <;>
      simp [pushIfNonNull, queueMeasure, List.map_append, List.sum_append] <;>
      omega
  have h1 := hpush thisRest tl tl
  have h2 := hpush (pushIfNonNull thisRest tl tl) tr tr
  have hc : queueMeasure (Node.node tl td th tbf tr :: thisRest) =
      2 * (countNodes tl + countNodes tr + 1) + 1 + queueMeasure thisRest := by
    simp [queueMeasure, countNodes]
    omega
  omega

/-- AVLBinaryTree equals: false when the root pointer of the receiver is
null or the two sizes differ; otherwise the two roots seed the parallel
level-order walk. -/
def equals (t other : AVLBinaryTree) : Option Bool :=
  if t.root = Node.nil ∨ t.treeSize ≠ other.treeSize then some false
  else equalsLoop [t.root] [other.root]

/-- Height of a subtree recomputed from scratch (null has height -1), as
the glossary of the specification defines it; used to state the claims
about balance factors independently of the cached fields. -/
def realHeight : Node → Int
  | Node.nil => -1
  | Node.node l _ _ _ r => max (realHeight l) (realHeight r) + 1

/-- The predicate of claim C1: every node of the tree has balance factor
(recomputed right height minus left height) in the range -1..1. -/
def allBalanced : Node → Bool
  | Node.nil => true
  | Node.node l _ _ _ r =>
      (decide (-1 ≤ realHeight r - realHeight l ∧ realHeight r - realHeight l ≤ 1)) &&
      allBalanced l && allBalanced r

/-- The predicate of claim C4: consecutive keys strictly increase. -/
def strictlyAscending : List Int → Bool
  | [] => true
  | [_] => true
  | a :: b :: rest => decide (a < b) && strictlyAscending (b :: rest)

/-- A rotation primitive invocation, recorded by the counting variants
below: RotationKind.left for leftRotation, RotationKind.right for
rightRotation. -/
inductive RotationKind where
  | left : RotationKind
  | right : RotationKind
deriving DecidableEq

/-- checkBalanceAndUpdate together with the list of rotation primitives it
invokes, in invocation order; the returned tree is the same as that of
checkBalanceAndUpdate. -/
def checkBalanceAndUpdateCounting (n : Node) : Node × List RotationKind :=
  if balanceFactorOf n = -2 then
    if balanceFactorOf (leftChild n) ≤ 0 then (rightRotation n, [RotationKind.right])
    else (leftRightRotation n, [RotationKind.left, RotationKind.right])
  else if balanceFactorOf n = 2 then
    if balanceFactorOf (rightChild n) ≥ 0 then (leftRotation n, [RotationKind.left])
    else (rightLeftRotation n, [RotationKind.right, RotationKind.left])
  else (n, [])

/-- DFSInsertHelper instrumented with the rotation record: same tree and
same treeSize increment count, plus every rotation primitive invoked. -/
def DFSInsertHelperCounting (element : Int) : Node → Node × Int × List RotationKind
  | Node.nil => (Node.node Node.nil element 0 0 Node.nil, 1, [])
  | Node.node l d h bf r =>
    if element > d then
      let p := DFSInsertHelperCounting element r
      let q := checkBalanceAndUpdateCounting (updateHeight p.1)
      let s := checkBalanceAndUpdateCounting (updateHeight (Node.node l d h bf q.1))
      (s.1, p.2.1, p.2.2 ++ q.2 ++ s.2)
    else
      let p := DFSInsertHelperCounting element l
      let q := checkBalanceAndUpdateCounting (updateHeight p.1)
      let s := checkBalanceAndUpdateCounting (updateHeight (Node.node q.1 d h bf r))
      (s.1, p.2.1, p.2.2 ++ q.2 ++ s.2)

/-- insert instrumented with the rotation record of the call. -/
def insertCounting (t : AVLBinaryTree) (arg : Int) : AVLBinaryTree × List RotationKind :=
  match t.root with
  | Node.nil => (⟨Node.node Node.nil arg 0 0 Node.nil, t.treeSize + 1⟩, [])
  | n =>
    let p := DFSInsertHelperCounting arg n
    (⟨p.1, t.treeSize + p.2.1⟩, p.2.2)

/-- Embedding of the QueueADT state (element type int): the stored
sequence with the head pointer at the list head and the tail pointer at
the last element, plus the size counter. -/
structure QueueADT where
  elems : List Int
  size_ : Int
deriving DecidableEq

/-- QueueADT enqueue: append at the tail and increment the size. -/
def QueueADT.enqueue (q : QueueADT) (elem : Int) : QueueADT :=
  ⟨q.elems ++ [elem], q.size_ + 1⟩

/-- QueueADT dequeue: a null head pointer returns immediately, touching
neither the list nor the size; otherwise the head node is unlinked and
freed and the size decrements. -/
def QueueADT.dequeue (q : QueueADT) : QueueADT :=
  match q.elems with
  | [] => q
  | _ :: rest => ⟨rest, q.size_ - 1⟩

/-- QueueADT front: a null head pointer throws a runtime error, otherwise
the head data is returned. -/
def QueueADT.front (q : QueueADT) : Except String Int :=
  match q.elems with
  | [] => Except.error ("front() called on empty LinkedList")
  | x :: _ => Except.ok x

/-- QueueADT back: a null tail pointer throws a runtime error, otherwise
the tail data is returned. -/
def QueueADT.back (q : QueueADT) : Except String Int :=
  match q.elems.getLast? with
  | none => Except.error ("back() called on empty LinkedList")
  | some x => Except.ok x

/-- Claim C1, counterexample.  The tree obtained by inserting 10 and then
20 has every node with balance factor in the range -1..1 (the root has
balance factor 1, its right child 0), yet isBalanced returns false,
because isBalanced only tests whether the cached child heights of the
root differ by exactly 0.  The claimed equivalence therefore fails at
this input. -/
theorem c1_counterexample :
    isBalanced (insert (insert AVLBinaryTree.empty 10) 20) = false ∧
    allBalanced (insert (insert AVLBinaryTree.empty 10) 20).root = true := by
  decide

/-- Claim C1, amended.  isBalanced returns true iff the tree is empty or
the cached heights of the two children of the root are equal; only the
root is inspected, not every node.  In particular it returns true for the
empty tree. -/
theorem c1_amended (t : AVLBinaryTree) :
    isBalanced t = true ↔
      (t.root = Node.nil ∨
        childHeight (leftChild t.root) = childHeight (rightChild t.root)) := by
  obtain ⟨root, sz⟩ := t
  cases root with
  | nil => simp [isBalanced]
  | node l d h bf r =>
    simp [isBalanced, calculateHeightOfTree, leftChild, rightChild]
    omega

/-- Claim C2 (code bug).  Inserting a key already present is not a no-op:
DFSInsertHelper sends every key that is not strictly greater to the left,
so an equal key descends to a null pointer and a duplicate node is
allocated.  Inserting 10 twice from the empty tree yields treeSize 2 and
in-order key sequence 10, 10, although after the first insert the tree
held exactly the key 10. -/
theorem c2_duplicate_insert :
    (insert AVLBinaryTree.empty 10).treeSize = 1 ∧
    inorderKeys (insert AVLBinaryTree.empty 10).root = [10] ∧
    (insert (insert AVLBinaryTree.empty 10) 10).treeSize = 2 ∧
    inorderKeys (insert (insert AVLBinaryTree.empty 10) 10).root = [10, 10] := by
  decide

/-- Claim C3 (code bug).  Removing an absent key is not a safe no-op.  On
the singleton tree holding 10, remove 5 takes the treeSize equal 1 branch
and frees the root without comparing keys: the size drops to 0 and the
sole element is gone.  On the two-element tree holding 10 and 20, remove 5
reaches removeHelper, whose retrieveNodeDFS returns a null pointer that is
then dereferenced: the operation crashes (modelled as none). -/
theorem c3_remove_absent :
    remove (insert AVLBinaryTree.empty 10) 5 =
      some ⟨Node.node Node.nil 10 0 0 Node.nil, 0⟩ ∧
    remove (insert (insert AVLBinaryTree.empty 10) 20) 5 = none := by
  decide

/-- Claim C4 (code bug).  The reachable state obtained by inserting 10
twice from the empty tree has in-order key sequence 10, 10, which is not
strictly ascending: the duplicate-inserting defect of DFSInsertHelper
violates the claimed invariant on a two-step insert sequence. -/
theorem c4_inorder_duplicates :
    inorderKeys (insert (insert AVLBinaryTree.empty 10) 10).root = [10, 10] ∧
    strictlyAscending
      (inorderKeys (insert (insert AVLBinaryTree.empty 10) 10).root) = false := by
  decide

/-- Claim C5.  For every node whose cached balance factor is -2 and whose
left child is present, checkBalanceAndUpdate performs a single right
rotation at the node when the cached balance factor of the left child is
at most 0, and otherwise first left-rotates the left child, stores it back
as the left child, and right-rotates the node (the left-right elbow case);
the rotated subtree root is the returned value, which every caller stores
into the old child pointer (see DFSInsertHelper and insert). -/
theorem c5_left_heavy_rotation (ll : Node) (ld lh lbf : Int) (lr : Node)
    (d h : Int) (r : Node) :
    checkBalanceAndUpdate (Node.node (Node.node ll ld lh lbf lr) d h (-2) r) =
      if lbf ≤ 0 then
        rightRotation (Node.node (Node.node ll ld lh lbf lr) d h (-2) r)
      else
        rightRotation
          (Node.node (leftRotation (Node.node ll ld lh lbf lr)) d h (-2) r) := by
  simp [checkBalanceAndUpdate, balanceFactorOf, leftChild, leftRightRotation]

/-- Claim C6.  Inserting 10, 20, 30 in this order into the empty tree
invokes exactly one rotation primitive over the whole sequence, a single
left rotation (during the third insert; the first two perform none), and
produces the tree with root 20, left child 10, right child 30, all three
cached balance factors 0, and treeSize (the value size() returns) 3. -/
theorem c6_insert_10_20_30 :
    insertCounting (insertCounting (insertCounting AVLBinaryTree.empty 10).1 20).1 30 =
      (⟨Node.node (Node.node Node.nil 10 0 0 Node.nil) 20 1 0
          (Node.node Node.nil 30 0 0 Node.nil), 3⟩,
        [RotationKind.left]) ∧
    (insertCounting AVLBinaryTree.empty 10).2 = [] ∧
    (insertCounting (insertCounting AVLBinaryTree.empty 10).1 20).2 = [] ∧
    size (insertCounting (insertCounting (insertCounting
      AVLBinaryTree.empty 10).1 20).1 30).1 = 3 := by
  decide

/-- Claim C7, counterexample.  Two empty trees compare unequal: equals
returns false whenever the receiver root is null, so the claimed
equivalence fails at the pair of empty trees.  The equivalence also fails
in the other direction on nonempty trees: the trees built by inserting 5
then 3 and by inserting 5 then 4 have the same shape but different data,
yet equals returns true, because the level-order loop enqueues the
receiver left child on the other queue in place of the other left child
and thus compares the receiver node against itself. -/
theorem c7_counterexample :
    equals AVLBinaryTree.empty AVLBinaryTree.empty = some false ∧
    insert (insert AVLBinaryTree.empty 5) 3 =
      ⟨Node.node (Node.node Node.nil 3 0 0 Node.nil) 5 1 (-1) Node.nil, 2⟩ ∧
    insert (insert AVLBinaryTree.empty 5) 4 =
      ⟨Node.node (Node.node Node.nil 4 0 0 Node.nil) 5 1 (-1) Node.nil, 2⟩ ∧
    equals ⟨Node.node (Node.node Node.nil 3 0 0 Node.nil) 5 1 (-1) Node.nil, 2⟩
      ⟨Node.node (Node.node Node.nil 4 0 0 Node.nil) 5 1 (-1) Node.nil, 2⟩ =
      some true := by
  refine ⟨by decide, by decide, by decide, ?_⟩
  simp [equals, equalsLoop, pushIfNonNull]

/-- Claim C7, amended.  equals returns false whenever the receiver tree is
empty or the two sizes differ; in particular two empty trees compare
unequal, not equal. -/
theorem c7_amended (t u : AVLBinaryTree)
    (h : t.root = Node.nil ∨ t.treeSize ≠ u.treeSize) :
    equals t u = some false := by
  unfold equals
  exact if_pos h

/-- Witness for c7_amended: the singleton tree holding 1 and the empty
tree have different sizes, and equals returns false on them. -/
theorem c7_amended_witness :
    ((insert AVLBinaryTree.empty 1).root = Node.nil ∨
      (insert AVLBinaryTree.empty 1).treeSize ≠ AVLBinaryTree.empty.treeSize) ∧
    equals (insert AVLBinaryTree.empty 1) AVLBinaryTree.empty = some false :=
  ⟨Or.inr (by decide), c7_amended _ _ (Or.inr (by decide))⟩

/-- Claim C8, counterexample.  dequeue on the empty queue is a silent
no-op: it returns normally with the queue unchanged, in contrast to front,
which signals the fatal runtime error; the claim that dequeue on an empty
queue signals a fatal error therefore fails. -/
theorem c8_counterexample :
    QueueADT.dequeue ⟨[], 0⟩ = (⟨[], 0⟩ : QueueADT) ∧
    QueueADT.front ⟨[], 0⟩ =
      Except.error ("front() called on empty LinkedList") := by
  exact ⟨rfl, rfl⟩

/-- Claim C8, amended.  On an empty queue, front and back each signal a
fatal runtime error, while dequeue silently returns with the queue (list
and size counter both) unchanged. -/
theorem c8_amended (q : QueueADT) (h : q.elems = []) :
    QueueADT.front q = Except.error ("front() called on empty LinkedList") ∧
    QueueADT.back q = Except.error ("back() called on empty LinkedList") ∧
    QueueADT.dequeue q = q := by
  refine ⟨?_, ?_, ?_⟩
  · simp [QueueADT.front, h]
  · simp [QueueADT.back, h]
  · simp [QueueADT.dequeue, h]

/-- Witness for c8_amended at a concrete empty queue. -/
theorem c8_amended_witness :
    QueueADT.elems ⟨[], 5⟩ = [] ∧
    (QueueADT.front ⟨[], 5⟩ =
        Except.error ("front() called on empty LinkedList") ∧
      QueueADT.back ⟨[], 5⟩ =
        Except.error ("back() called on empty LinkedList") ∧
      QueueADT.dequeue ⟨[], 5⟩ = (⟨[], 5⟩ : QueueADT)) :=
  ⟨rfl, c8_amended ⟨[], 5⟩ rfl⟩

/-- Claim C9.  On every tree state holding exactly one node (non-null root
and treeSize 1), remove with an arbitrary key frees the root node and
decrements treeSize to 0 without comparing keys and without resetting the
root pointer, which keeps its old non-null value; consequently isEmpty
still answers false on the resulting state while size is 0. -/
theorem c9_singleton_remove (t : AVLBinaryTree) (x : Int)
    (hroot : t.root ≠ Node.nil) (hsize : t.treeSize = 1) :
    remove t x = some ⟨t.root, 0⟩ ∧
    isEmpty ⟨t.root, 0⟩ = false ∧ size ⟨t.root, 0⟩ = 0 := by
  obtain ⟨root, sz⟩ := t
  cases root with
  | nil => exact absurd rfl hroot
  | node l d h bf r =>
    refine ⟨?_, ?_, rfl⟩
    · simp only at hsize
      simp [remove, hsize]
    · simp [isEmpty]

/-- Witness for c9_singleton_remove: the singleton tree holding 7, removed
with the non-matching key 42. -/
theorem c9_singleton_remove_witness :
    ((⟨Node.node Node.nil 7 0 0 Node.nil, 1⟩ : AVLBinaryTree).root ≠ Node.nil ∧
      (⟨Node.node Node.nil 7 0 0 Node.nil, 1⟩ : AVLBinaryTree).treeSize = 1) ∧
    (remove ⟨Node.node Node.nil 7 0 0 Node.nil, 1⟩ 42 =
        some ⟨Node.node Node.nil 7 0 0 Node.nil, 0⟩ ∧
      isEmpty ⟨Node.node Node.nil 7 0 0 Node.nil, 0⟩ = false ∧
      size ⟨Node.node Node.nil 7 0 0 Node.nil, 0⟩ = 0) :=
  ⟨⟨by decide, rfl⟩,
    c9_singleton_remove ⟨Node.node Node.nil 7 0 0 Node.nil, 1⟩ 42 (by decide) rfl⟩

/-- Claim C10.  With the element type instantiated at int, the guard of
binarySearch converts the searched key to bool and returns false when the
conversion yields false, that is for the key 0, before any descent; hence
contains answers false for the key 0 on every tree, even when 0 is among
the stored keys. -/
theorem c10_contains_zero (t : AVLBinaryTree)
    (hmem : 0 ∈ inorderKeys t.root) : contains t 0 = false := by
  simp [contains, binarySearch]

/-- Witness for c10_contains_zero: the tree built by inserting 0 stores
the key 0, yet contains reports false for it. -/
theorem c10_contains_zero_witness :
    0 ∈ inorderKeys (insert AVLBinaryTree.empty 0).root ∧
    contains (insert AVLBinaryTree.empty 0) 0 = false :=
  ⟨by decide, c10_contains_zero _ (by decide)⟩

end AVL
